import Mathlib

/-!
Verification of the GOMSGGW Client Manager (`scripts/main.py`), a CLI
administration tool for an SMS/MMS gateway HTTP API.

The Python source is shallowly embedded below.  Conventions:

* Python strings are Lean `String`s; all character-level processing
  (strip, lower, split, digit filtering) is defined over `List Char`
  so that every definition is kernel-computable.  The helpers mirror
  CPython semantics for the ASCII inputs this tool handles.
* An HTTP exchange is a value of an explicit response type supplied to
  the embedded operation: `Except String R` where the `.error` case is
  a caught `requests.RequestException` (network fault) and `R` carries
  the status code, the JSON-parse result of the body (`none` when the
  body does not parse as JSON), and the raw body text.
* `print` output is modelled as a `List String` in each operation's
  trace.  Fixed prompt-echo text shown before an `input()` call is
  presentation and elided; every result/error message is modelled.
* Python functions that can raise an uncaught exception return a
  `PyResult`, whose `.raised` case is an uncaught exception escaping
  the function.
* JSON records are modelled as structures holding exactly the fields
  the tool reads; fields the tool only renders into table rows
  (carrier type/limits, client display name, number tag/group) are
  elided, and table-row rendering is abstracted by small `show*`
  helpers, since no claim depends on the table text.
-/

/-- Python `str.strip()` whitespace set (ASCII part). -/
def isPySpace (c : Char) : Bool :=
  c = ' ' || c = '\t' || c = '\n' || c = '\r' || c = '\x0b' || c = '\x0c'

/-- Python `s.strip()`. -/
def pyStrip (s : String) : String :=
  String.mk (((s.toList.dropWhile isPySpace).reverse.dropWhile isPySpace).reverse)

/-- Python `s.lower()` (ASCII). -/
def pyLower (s : String) : String :=
  String.mk (s.toList.map Char.toLower)

/-- Python `s.isdigit()` (ASCII): nonempty and all characters are digits. -/
def pyIsDigit (s : String) : Bool :=
  !s.toList.isEmpty && s.toList.all Char.isDigit

/-- Numeric value of a digit string, used for Python `int(s)` on a string
that satisfies `isdigit`. -/
def digitsVal (l : List Char) : Nat :=
  l.foldl (fun a c => a * 10 + (c.toNat - 48)) 0

/-- Python `int(identifier)` for an all-digit identifier, as an `Int`
(gateway client ids are JSON integers). -/
def identVal (s : String) : Int :=
  Int.ofNat (digitsVal s.toList)

/-- Python `int(s)` on an arbitrary stripped prompt entry: optional sign
followed by at least one digit; `none` models `ValueError`.  (CPython also
allows `_` digit separators; the tool's numeric prompts never use them.) -/
def pyInt? (s : String) : Option Int :=
  match (pyStrip s).toList with
  | '+' :: rest =>
      if !rest.isEmpty && rest.all Char.isDigit then some (Int.ofNat (digitsVal rest)) else none
  | '-' :: rest =>
      if !rest.isEmpty && rest.all Char.isDigit then some (-(Int.ofNat (digitsVal rest))) else none
  | rest =>
      if !rest.isEmpty && rest.all Char.isDigit then some (Int.ofNat (digitsVal rest)) else none

/-- Split a character list on `','` (Python `s.split(",")`). -/
def splitOnComma : List Char → List (List Char)
  | [] => [[]]
  | c :: rest =>
      let r := splitOnComma rest
      if c = ',' then [] :: r
      else (c :: r.headD []) :: r.tail

/-- `pat` occurs as a contiguous sublist of the second argument
(Python `pat in s`). -/
def hasSub (pat : List Char) : List Char → Bool
  | [] => pat.isEmpty
  | c :: rest => pat.isPrefixOf (c :: rest) || hasSub pat rest

/-- Python `pat in s` on strings. -/
def strContains (s pat : String) : Bool :=
  hasSub pat.toList s.toList

/-- Result of a Python call that may raise an uncaught exception. -/
inductive PyResult (α : Type) where
  | ok (a : α)
  | raised (msg : String)
deriving DecidableEq

/- ===================================================================
   Data model: the JSON record fields the tool reads.
   =================================================================== -/

/-- A carrier record as read by `list_carriers` (rendered-only attributes
elided). -/
structure Carrier where
  name : String
deriving DecidableEq

/-- A number record under a client: the tool reads `n.get("number", "")`. -/
structure NumberEntry where
  number : String
deriving DecidableEq

/-- A client record as read by the lookup and number operations.
`id`/`username` are `Option` because Python `c.get(k)` yields `None`
for an absent key. -/
structure Client where
  id : Option Int
  username : Option String
  numbers : List NumberEntry
deriving DecidableEq

/-- Response to `GET /carriers` or `GET /clients` style list requests:
status code, JSON-parse of the body (`none` = not JSON), raw text. -/
structure CarriersResp where
  status : Nat
  json? : Option (List Carrier)
  text : String
deriving DecidableEq

/-- Response to `GET /clients`. -/
structure ClientsResp where
  status : Nat
  json? : Option (List Client)
  text : String
deriving DecidableEq

/-- A generic mutating-request response where the tool only prints the
parsed body: status, canonical rendering of the parsed JSON body when it
parses, raw text. -/
structure RawResp where
  status : Nat
  json? : Option String
  text : String
deriving DecidableEq

/-- Abstract rendering of `print(resp.json())` for a carrier list. -/
def showCarriers (cs : List Carrier) : String :=
  String.intercalate "; " (cs.map Carrier.name)

/-- Abstract rendering of one carrier table row. -/
def showCarrierRow (c : Carrier) : String :=
  "row " ++ c.name

/-- Abstract rendering of one client table row. -/
def showClientRow (c : Client) : String :=
  "row " ++ (c.username.getD "")

/-- Abstract rendering of one number table row. -/
def showNumberRow (n : NumberEntry) : String :=
  "row " ++ n.number

/- ===================================================================
   Transport: auth_tuple / get_json (main.py lines 36-53).
   The module global `API_KEY` defaults to the placeholder "API_KEY"
   when the environment variable is absent.  `auth_tuple` reads the
   global into a local `key`, prompts when it is empty or the
   placeholder, and never assigns the global.
   =================================================================== -/

/-- State of the transport layer across one interactive session:
the module-global `API_KEY` value and how many interactive key prompts
have occurred so far. -/
structure TransportState where
  api_key : String
  prompts : Nat
deriving DecidableEq

/-- One `auth_tuple()` call: `promptInput` is what the operator would type
if prompted.  Returns the (possibly updated) transport state and the basic
auth pair; `.error` models `sys.exit(1)` on an empty prompted key.
`auth_tuple` in the source never writes `API_KEY` back, so `api_key` is
unchanged in every case. -/
def auth_tuple (st : TransportState) (promptInput : String) :
    Except String (TransportState × (String × String)) :=
  if st.api_key = "" || st.api_key = "API_KEY" then
    let key := pyStrip promptInput
    if key = "" then .error "Error: API key required."
    else .ok ({ st with prompts := st.prompts + 1 }, ("apikey", key))
  else .ok (st, ("apikey", st.api_key))

/-- A sequence of HTTP requests: each of `get_json`/`post_json`/`put_json`/
`patch_json` calls `auth_tuple()` afresh; `inputs` supplies one prompt
entry per request. -/
def run_requests : TransportState → List String → Except String TransportState
  | st, [] => .ok st
  | st, p :: ps =>
      match auth_tuple st p with
      | .error e => .error e
      | .ok (st', _) => run_requests st' ps

/- ===================================================================
   Number parsing (main.py lines 451-473).
   =================================================================== -/

/-- `normalize_number`: `re.sub(r"[^\d]", "", num)` — keep only digits. -/
def normalize_number (num : String) : String :=
  String.mk (num.toList.filter Char.isDigit)

/-- The fragment list of `parse_numbers_csv`:
`[p.strip() for p in raw.replace("\n", ",").split(",") if p.strip()]`. -/
def splitParts (raw : String) : List String :=
  ((splitOnComma (raw.toList.map (fun c => if c = '\n' then ',' else c))).map
      (fun l => pyStrip (String.mk l))).filter (fun p => p ≠ "")

/-- Validity test of one fragment: normalized length in [10, 11]. -/
def fragValid (p : String) : Bool :=
  decide (10 ≤ (normalize_number p).length) && decide ((normalize_number p).length ≤ 11)

/-- Normalized form submitted for a valid fragment: 10-digit values are
prefixed with "1". -/
def fragNorm (p : String) : String :=
  let n := normalize_number p
  if n.length = 10 then "1" ++ n else n

/-- The classification loop of `parse_numbers_csv`: builds `(valid, invalid)`
in input order (the Python loop appends to two accumulator lists). -/
def parse_classify : List String → List String × List String
  | [] => ([], [])
  | p :: rest =>
      let r := parse_classify rest
      if fragValid p then (fragNorm p :: r.1, r.2)
      else (r.1, p :: r.2)

/-- `parse_numbers_csv`: returns the valid normalized numbers. -/
def parse_numbers_csv (raw : String) : List String :=
  (parse_classify (splitParts raw)).1

/-- The operator-visible report of `parse_numbers_csv`: one warning header
plus one line per invalid entry, or nothing when all entries are valid. -/
def parse_numbers_csv_output (raw : String) : List String :=
  let invalid := (parse_classify (splitParts raw)).2
  if invalid.isEmpty then []
  else "⚠️ These entries are invalid:" :: invalid.map (fun bad => "  - " ++ bad)

/- ===================================================================
   Client lookup (main.py lines 242-268).
   =================================================================== -/

/-- The pure scan of `get_client_by_identifier` over the fetched client
list: an all-digit identifier is first matched against ids as integers;
only when that finds nothing (or the identifier is non-numeric) is an
exact username match tried. -/
def get_client_by_identifier (clients : List Client) (identifier : String) :
    Option Client :=
  match (if pyIsDigit identifier then
          clients.find? (fun c => c.id == some (identVal identifier))
        else none) with
  | some c => some c
  | none => clients.find? (fun c => c.username == some identifier)

/-- `get_client` (main.py lines 266-268): despite its docstring "by
username (legacy)", it delegates to `get_client_by_identifier`. -/
def get_client (clients : List Client) (username : String) : Option Client :=
  get_client_by_identifier clients username

/-- `get_client_by_identifier` including its own `GET /clients` exchange:
network errors print and yield `None`; a non-200 status yields `None`
with NO output (lines 250-251); on 200 the body is parsed by an unguarded
`resp.json()`. -/
def get_client_by_identifier_op (r : Except String ClientsResp)
    (identifier : String) : PyResult (Option Client) × List String :=
  match r with
  | .error e => (.ok none, ["Network error: " ++ e])
  | .ok resp =>
      if resp.status ≠ 200 then (.ok none, [])
      else
        match resp.json? with
        | none => (.raised "JSONDecodeError", [])
        | some clients => (.ok (get_client_by_identifier clients identifier), [])

/- ===================================================================
   list_carriers (main.py lines 82-117) and list_clients (208-239).
   =================================================================== -/

/-- Trace of `list_carriers`: outcome (`.raised` = uncaught exception)
and printed lines. -/
structure ListCarriersTrace where
  outcome : PyResult (Option (List Carrier))
  output : List String
deriving DecidableEq

/-- `list_carriers`: non-200 prints the failure with a parsed-body /
raw-text fallback and returns `None`; on 200 the body is parsed by an
unguarded `resp.json()`; an empty list prints "No carriers found." and
returns `[]`. -/
def list_carriers (r : Except String CarriersResp) : ListCarriersTrace :=
  let hdr := "\n=== All Carriers ==="
  match r with
  | .error e => { outcome := .ok none, output := [hdr, "Network error: " ++ e] }
  | .ok resp =>
      if resp.status ≠ 200 then
        { outcome := .ok none
          output := [hdr, "❌ Failed to list carriers (" ++ toString resp.status ++ ")",
            match resp.json? with
            | some cs => showCarriers cs
            | none => resp.text] }
      else
        match resp.json? with
        | none => { outcome := .raised "JSONDecodeError", output := [hdr] }
        | some carriers =>
            if carriers.isEmpty then
              { outcome := .ok (some []), output := [hdr, "No carriers found."] }
            else
              { outcome := .ok (some carriers)
                output := hdr :: (carriers.map showCarrierRow
                  ++ ["Total: " ++ toString carriers.length ++ " carriers"]) }

/-- `list_clients`: like `list_carriers` but the non-200 branch prints
ONLY the status line (no body), and the 200 body is parsed by an
unguarded `resp.json()`. -/
def list_clients (r : Except String ClientsResp) :
    PyResult (Option (List Client)) × List String :=
  let hdr := "\n=== All Clients ==="
  match r with
  | .error e => (.ok none, [hdr, "Network error: " ++ e])
  | .ok resp =>
      if resp.status ≠ 200 then
        (.ok none, [hdr, "❌ Failed to list clients (" ++ toString resp.status ++ ")"])
      else
        match resp.json? with
        | none => (.raised "JSONDecodeError", [hdr])
        | some clients =>
            if clients.isEmpty then (.ok (some []), [hdr, "No clients found."])
            else
              (.ok (some clients), hdr :: (clients.map showClientRow
                ++ ["Total: " ++ toString clients.length ++ " clients"]))

/-- The submit/response tail of `create_carrier_interactive` (main.py
lines 171-186; the prompt assembly above it only builds the payload and
is not needed by any claim): 2xx returns the carrier name, otherwise the
status and parsed-body / raw-text fallback are printed. -/
def create_carrier_submit (name : String) (r : Except String RawResp) :
    Option String × List String :=
  match r with
  | .error e => (none, ["Network error: " ++ e])
  | .ok resp =>
      if 200 ≤ resp.status ∧ resp.status < 300 then
        (some name, ["✅ Carrier created: " ++ name])
      else
        (none, ["❌ Failed to create carrier (" ++ toString resp.status ++ ")",
          match resp.json? with
          | some j => j
          | none => resp.text])

/- ===================================================================
   add_numbers_to_client (main.py lines 476-525).
   =================================================================== -/

/-- Parsed JSON body of a failed number-add response: the `"error"` field
if present, and `repr` = Python `str(body)` used when the field is absent. -/
structure AddErrBody where
  error? : Option String
  repr : String
deriving DecidableEq

/-- Response to one `POST /clients/{id}/numbers`. -/
inductive AddResp where
  | netErr (e : String)
  | resp (status : Nat) (json? : Option AddErrBody) (text : String)
deriving DecidableEq

/-- The error text extracted from a failed add response:
`body.get("error", str(body))` when the body parses, else `resp.text`. -/
def addErrText (json? : Option AddErrBody) (text : String) : String :=
  match json? with
  | some b => b.error?.getD b.repr
  | none => text

/-- Loop state of `add_numbers_to_client`: the in-memory exclusion set
(`existing`), the three tallies, the number of HTTP requests sent so far,
and the per-number printed lines. -/
structure AddState where
  existing : List String
  added : Nat
  skipped : Nat
  failed : Nat
  reqs : Nat
  output : List String
deriving DecidableEq

/-- One iteration of the number loop: a number already in the exclusion
set is skipped without a request; otherwise the `oracle` gives the
response of the next request (indexed by requests sent so far).  2xx adds
and extends the exclusion set; a non-2xx whose error text contains the
case-insensitive substring "already exists" is skipped; anything else
(including a network error) fails. -/
def addStep (oracle : Nat → AddResp) (st : AddState) (num : String) : AddState :=
  if num ∈ st.existing then
    { st with skipped := st.skipped + 1
              output := st.output ++ ["  " ++ num ++ ": ⏭️ already exists, skipping"] }
  else
    match oracle st.reqs with
    | .netErr e =>
        { st with failed := st.failed + 1, reqs := st.reqs + 1
                  output := st.output ++ ["  " ++ num ++ ": ❌ network error: " ++ e] }
    | .resp status json? text =>
        if 200 ≤ status ∧ status < 300 then
          { st with added := st.added + 1, reqs := st.reqs + 1
                    existing := st.existing ++ [num]
                    output := st.output ++ ["  " ++ num ++ ": ✅ added"] }
        else
          if strContains (pyLower (addErrText json? text)) "already exists" then
            { st with skipped := st.skipped + 1, reqs := st.reqs + 1
                      output := st.output ++ ["  " ++ num ++ ": ⏭️ already exists"] }
          else
            { st with failed := st.failed + 1, reqs := st.reqs + 1
                      output := st.output ++ ["  " ++ num ++ ": ❌ failed ("
                        ++ toString status ++ ") -> " ++ addErrText json? text] }

/-- The number loop. -/
def add_loop (oracle : Nat → AddResp) : AddState → List String → AddState
  | st, [] => st
  | st, num :: rest => add_loop oracle (addStep oracle st num) rest

/-- `add_numbers_to_client` after the client has been resolved, with
skip-existing enabled (the default): `existing0` is the client's number
snapshot (`[n.get("number","") for n in client.get("numbers", [])]`). -/
def add_numbers_to_client (existing0 : List String) (numbers : List String)
    (oracle : Nat → AddResp) : AddState :=
  add_loop oracle { existing := existing0, added := 0, skipped := 0, failed := 0,
                    reqs := 0, output := [] } numbers

/- ===================================================================
   create_client_interactive (main.py lines 311-377).
   =================================================================== -/

/-- Raw prompt entries of `create_client_interactive`, in prompt order. -/
structure CreateClientPrompts where
  username : String
  password : String
  name : String
  type_choice : String
  address : String
  limit_input : String
deriving DecidableEq

/-- The JSON payload POSTed to `/clients`; `address?` is `none` when the
`address` key is omitted (blank address). -/
structure ClientPayload where
  username : String
  password : String
  name : String
  ctype : String
  sms_limit : Int
  address? : Option String
deriving DecidableEq

/-- Parsed JSON body of a 2xx client-creation response: `id?` is the
`"id"` field rendered as a string when present (`data.get("id", "?")`). -/
structure CreateBody where
  id? : Option String
deriving DecidableEq

/-- Response to `POST /clients`. -/
structure CreateClientResp where
  status : Nat
  json? : Option CreateBody
  text : String
deriving DecidableEq

/-- Trace of `create_client_interactive`: the returned value (`none` =
Python `None`; `.raised` = uncaught exception), the payloads POSTed, and
the printed lines. -/
structure CreateTrace where
  result : PyResult (Option String)
  requests : List ClientPayload
  output : List String
deriving DecidableEq

/-- `create_client_interactive`: a blank username aborts; a blank password
is replaced by the generated `gen` and displayed; a legacy-type client
with a blank address aborts with an error BEFORE any request; a blank
address on a web client omits the `address` key from the payload; the
POST response is read via an unguarded `resp.json()` on 2xx, and via a
parsed-body / raw-text fallback otherwise. -/
def create_client_interactive (p : CreateClientPrompts) (gen : String)
    (r : Except String CreateClientResp) : CreateTrace :=
  let username := pyStrip p.username
  if username = "" then
    { result := .ok none, requests := [], output := ["Username is required."] }
  else
    let pw0 := pyStrip p.password
    let password := if pw0 = "" then gen else pw0
    let pwOut : List String :=
      if pw0 = "" then
        ["🔑 Generated password (save this now; it will not be shown again):",
         "  " ++ gen]
      else []
    let name := pyStrip p.name
    let client_type := if pyStrip p.type_choice = "2" then "web" else "legacy"
    let address := pyStrip p.address
    if client_type = "legacy" ∧ address = "" then
      { result := .ok none, requests := []
        output := pwOut ++
          ["❌ Address is required for legacy clients (used for SMPP ACL and MM4 delivery)"] }
    else
      let sms_limit : Int :=
        if pyStrip p.limit_input = "" then 0
        else (pyInt? (pyStrip p.limit_input)).getD 0
      let payload : ClientPayload :=
        { username := username, password := password, name := name,
          ctype := client_type, sms_limit := sms_limit,
          address? := if address ≠ "" then some address else none }
      match r with
      | .error e =>
          { result := .ok none, requests := [payload]
            output := pwOut ++ ["Network error creating client: " ++ e] }
      | .ok resp =>
          if 200 ≤ resp.status ∧ resp.status < 300 then
            match resp.json? with
            | none => { result := .raised "JSONDecodeError", requests := [payload]
                        output := pwOut }
            | some body =>
                let cid := body.id?.getD "?"
                { result := .ok (some cid), requests := [payload]
                  output := pwOut ++ ["✅ Client created: " ++ username
                    ++ " (ID: " ++ cid ++ ", Type: " ++ client_type ++ ")"] }
          else
            { result := .ok none, requests := [payload]
              output := pwOut ++ ["❌ Failed to create client ("
                  ++ toString resp.status ++ ")",
                match resp.json? with
                | some _ => "parsed-json-body"
                | none => resp.text] }

/- ===================================================================
   update_client_settings (main.py lines 380-437).
   =================================================================== -/

/-- Raw prompt entries of `update_client_settings`. -/
structure SettingsPrompts where
  format_choice : String
  webhook : String
  retries : String
  timeout : String
deriving DecidableEq

/-- The partial-update map: a field is `none` exactly when the key is
absent from the Python `settings` dict. -/
structure Settings where
  api_format : Option String
  default_webhook : Option String
  webhook_retries : Option Int
  webhook_timeout_secs : Option Int
deriving DecidableEq

/-- The `formats` dict lookup: `{"1": "generic", "2": "bicom", "3": "telnyx"}`. -/
def formatsLookup (choice : String) : Option String :=
  if choice = "1" then some "generic"
  else if choice = "2" then some "bicom"
  else if choice = "3" then some "telnyx"
  else none

/-- Assembly of the `settings` dict from the prompts: a skipped (blank)
prompt sets nothing, and an unparsable integer prompt is silently
ignored (`except ValueError: pass`). -/
def build_settings (p : SettingsPrompts) : Settings :=
  { api_format := formatsLookup (pyStrip p.format_choice)
    default_webhook := if pyStrip p.webhook ≠ "" then some (pyStrip p.webhook) else none
    webhook_retries := if pyStrip p.retries ≠ "" then pyInt? (pyStrip p.retries) else none
    webhook_timeout_secs := if pyStrip p.timeout ≠ "" then pyInt? (pyStrip p.timeout) else none }

/-- Python `if not settings:` — the dict is empty. -/
def settingsEmpty (s : Settings) : Bool :=
  s.api_format.isNone && s.default_webhook.isNone
    && s.webhook_retries.isNone && s.webhook_timeout_secs.isNone

/-- Trace of `update_client_settings` after the initial
`get_client_by_identifier` lookup (modelled separately): the `PUT`
payloads sent and the printed lines. -/
structure UpdateTrace where
  requests : List Settings
  output : List String
deriving DecidableEq

/-- `update_client_settings`, given the lookup result `client?` for
`identifier` and (when one is sent) the PUT response: an unresolved client
prints not-found; an empty settings map sends nothing and prints
"No settings to update."; otherwise one PUT is sent and its status decides
success (2xx) or a failure report with parsed-body / raw-text fallback. -/
def update_client_settings (identifier : String) (client? : Option Client)
    (p : SettingsPrompts) (r : Except String RawResp) : UpdateTrace :=
  match client? with
  | none => { requests := [], output := ["Client '" ++ identifier ++ "' not found."] }
  | some _ =>
      let settings := build_settings p
      if settingsEmpty settings then
        { requests := [], output := ["No settings to update."] }
      else
        match r with
        | .error e => { requests := [settings], output := ["Network error: " ++ e] }
        | .ok resp =>
            if 200 ≤ resp.status ∧ resp.status < 300 then
              { requests := [settings], output := ["✅ Settings updated."] }
            else
              { requests := [settings]
                output := ["❌ Failed (" ++ toString resp.status ++ ")",
                  match resp.json? with
                  | some j => j
                  | none => resp.text] }

/- ===================================================================
   list_client_numbers (main.py lines 528-550).
   =================================================================== -/

/-- `list_client_numbers`: resolves the client through `get_client`
(which delegates to the id-aware `get_client_by_identifier`) and renders
the numbers. -/
def list_client_numbers (clients : List Client) (username : String) :
    List String :=
  let hdr := "\n=== Numbers for '" ++ username ++ "' ==="
  match get_client clients username with
  | none => [hdr, "Client '" ++ username ++ "' not found."]
  | some client =>
      if client.numbers.isEmpty then [hdr, "No numbers configured."]
      else hdr :: client.numbers.map showNumberRow

/- ===================================================================
   Helper lemmas.
   =================================================================== -/

/-- The classification loop is the filter/map partition of its input. -/
theorem parse_classify_eq (parts : List String) :
    parse_classify parts =
      ((parts.filter fragValid).map fragNorm,
       parts.filter (fun p => !fragValid p)) := by
  induction parts with
  | nil => rfl
  | cons p rest ih =>
      cases h : fragValid p <;>
        simp [parse_classify, ih, List.filter_cons, h]

/-- Length bookkeeping of a Boolean partition by `filter`. -/
theorem filter_partition_length (f : String → Bool) (parts : List String) :
    (parts.filter f).length + (parts.filter (fun p => !f p)).length
      = parts.length := by
  induction parts with
  | nil => rfl
  | cons p rest ih =>
      cases h : f p <;> simp [List.filter_cons, h] <;> omega

/- ===================================================================
   Claims.
   =================================================================== -/

/-- C3: `parse_numbers_csv` splits the raw block on commas and newlines,
trims, drops empty fragments, and partitions the remaining fragments in
input order into valid (normalized digit count 10 or 11; 10-digit values
get a "1" prefix) and invalid (everything else, reported individually,
excluded from the result); each fragment lands in exactly one class, the
class sizes sum to the fragment count, and the valid list is not
deduplicated. -/
theorem C3_parse_partition :
    (∀ parts : List String,
        parse_classify parts =
          ((parts.filter fragValid).map fragNorm,
           parts.filter (fun p => !fragValid p)))
    ∧ (∀ parts : List String,
        (parse_classify parts).1.length + (parse_classify parts).2.length
          = parts.length)
    ∧ (∀ raw : String,
        parse_numbers_csv raw = ((splitParts raw).filter fragValid).map fragNorm)
    ∧ (∀ raw : String,
        parse_numbers_csv_output raw =
          (if ((splitParts raw).filter (fun p => !fragValid p)).isEmpty then []
           else "⚠️ These entries are invalid:" ::
             ((splitParts raw).filter (fun p => !fragValid p)).map
               (fun bad => "  - " ++ bad)))
    ∧ splitParts "2025550100, \n(202) 555-0101,,123," = ["2025550100", "(202) 555-0101", "123"]
    ∧ parse_numbers_csv "2025550100, \n(202) 555-0101,,123," = ["12025550100", "12025550101"]
    ∧ parse_numbers_csv_output "2025550100, \n(202) 555-0101,,123," =
        ["⚠️ These entries are invalid:", "  - 123"]
    ∧ parse_numbers_csv "2025550100, 2025550100" = ["12025550100", "12025550100"] := by
  refine ⟨fun parts => parse_classify_eq parts, fun parts => ?_, fun raw => ?_, fun raw => ?_,
    by decide, by decide, by decide, by decide⟩
  · rw [parse_classify_eq]
    simpa using filter_partition_length fragValid parts
  · rw [parse_numbers_csv, parse_classify_eq]
  · rw [parse_numbers_csv_output, parse_classify_eq]

/-- Concrete client list for the lookup scenario: ids 1, 2, 3 with
usernames "a", "b", "c", plus a client whose USERNAME is the digit
string "2" listed first, to show that an id match takes precedence. -/
def exClients : List Client :=
  [⟨some 4, some "2", []⟩, ⟨some 1, some "a", []⟩,
   ⟨some 2, some "b", []⟩, ⟨some 3, some "c", []⟩]

/-- C2: client lookup tries an exact integer id match first for an
all-digit identifier; only when no id matches (or the identifier is
non-numeric) does it fall back to an exact username match; no match at
all yields `none`.  Concretely, over ids {1,2,3,4} with usernames
{"2","a","b","c"}, "2" resolves to the id-2 client (not the client whose
username is "2"), "b" resolves by username, and "9" / "z" yield `none`. -/
theorem C2_client_lookup :
    (∀ (clients : List Client) (ident : String) (c : Client),
        pyIsDigit ident = true →
        clients.find? (fun c => c.id == some (identVal ident)) = some c →
        get_client_by_identifier clients ident = some c)
    ∧ (∀ (clients : List Client) (ident : String),
        clients.find? (fun c => c.id == some (identVal ident)) = none →
        get_client_by_identifier clients ident
          = clients.find? (fun c => c.username == some ident))
    ∧ (∀ (clients : List Client) (ident : String),
        pyIsDigit ident = false →
        get_client_by_identifier clients ident
          = clients.find? (fun c => c.username == some ident))
    ∧ get_client_by_identifier exClients "2" = some ⟨some 2, some "b", []⟩
    ∧ get_client_by_identifier exClients "b" = some ⟨some 2, some "b", []⟩
    ∧ get_client_by_identifier exClients "9" = none
    ∧ get_client_by_identifier exClients "z" = none := by
  refine ⟨fun clients ident c h1 h2 => ?_, fun clients ident h => ?_,
    fun clients ident h => ?_, by decide, by decide, by decide, by decide⟩
  · simp [get_client_by_identifier, h1, h2]
  · cases hd : pyIsDigit ident <;> simp [get_client_by_identifier, hd, h]
  · simp [get_client_by_identifier, h]

/-- Witness for C2: the id-match branch applied at the concrete scenario. -/
theorem C2_client_lookup_witness :
    pyIsDigit "2" = true
    ∧ exClients.find? (fun c => c.id == some (identVal "2"))
        = some ⟨some 2, some "b", []⟩
    ∧ get_client_by_identifier exClients "2" = some ⟨some 2, some "b", []⟩ :=
  ⟨by decide, by decide,
    C2_client_lookup.1 exClients "2" ⟨some 2, some "b", []⟩ (by decide) (by decide)⟩

/-- Each loop iteration increments exactly one of the three tallies. -/
theorem addStep_tally (oracle : Nat → AddResp) (st : AddState) (num : String) :
    (addStep oracle st num).added + (addStep oracle st num).skipped
      + (addStep oracle st num).failed
      = st.added + st.skipped + st.failed + 1 := by
  unfold addStep
  split
  · dsimp only; omega
  · cases h : oracle st.reqs with
    | netErr e => simp only [h]; omega
    | resp status json? text =>
        simp only [h]
        split
        · dsimp only; omega
        · split <;> (dsimp only; omega)

/-- Tally invariant of the whole loop. -/
theorem add_loop_tally (oracle : Nat → AddResp) (nums : List String)
    (st : AddState) :
    (add_loop oracle st nums).added + (add_loop oracle st nums).skipped
      + (add_loop oracle st nums).failed
      = st.added + st.skipped + st.failed + nums.length := by
  induction nums generalizing st with
  | nil => simp [add_loop]
  | cons num rest ih =>
      rw [add_loop, ih]
      have := addStep_tally oracle st num
      simp only [List.length_cons]
      omega

/-- C1: in a batch add with skip-existing, every candidate number is
counted exactly once as added, skipped or failed; a number already in the
exclusion set is skipped without an HTTP request; a 2xx response counts
as added and inserts the number into the exclusion set; and adding
["12025550100","12025550100"] to a client with no existing numbers under
an always-2xx server yields added=1, skipped=1, failed=0 with exactly one
HTTP request sent. -/
theorem C1_add_numbers_tally :
    (∀ (existing0 nums : List String) (oracle : Nat → AddResp),
        (add_numbers_to_client existing0 nums oracle).added
          + (add_numbers_to_client existing0 nums oracle).skipped
          + (add_numbers_to_client existing0 nums oracle).failed
          = nums.length)
    ∧ (∀ (oracle : Nat → AddResp) (st : AddState) (num : String),
        num ∈ st.existing →
          (addStep oracle st num).reqs = st.reqs
          ∧ (addStep oracle st num).skipped = st.skipped + 1
          ∧ (addStep oracle st num).existing = st.existing)
    ∧ (∀ (oracle : Nat → AddResp) (st : AddState) (num : String)
        (status : Nat) (json? : Option AddErrBody) (text : String),
        ¬ num ∈ st.existing →
        oracle st.reqs = .resp status json? text →
        200 ≤ status → status < 300 →
          (addStep oracle st num).added = st.added + 1
          ∧ (addStep oracle st num).existing = st.existing ++ [num]
          ∧ (addStep oracle st num).reqs = st.reqs + 1)
    ∧ add_numbers_to_client [] ["12025550100", "12025550100"]
        (fun _ => .resp 200 none "")
      = { existing := ["12025550100"], added := 1, skipped := 1, failed := 0,
          reqs := 1,
          output := ["  12025550100: ✅ added",
                     "  12025550100: ⏭️ already exists, skipping"] } := by
  refine ⟨fun existing0 nums oracle => ?_,
    fun oracle st num h => ?_,
    fun oracle st num status json? text h1 h2 h3 h4 => ?_, by decide⟩
  · rw [add_numbers_to_client]
    have h := add_loop_tally oracle nums
      { existing := existing0, added := 0, skipped := 0, failed := 0,
        reqs := 0, output := [] }
    simpa using h
  · simp [addStep, h]
  · simp [addStep, h1, h2, h3, h4]

/-- Witness for C1: the skip-without-request and 2xx branches applied at
concrete states. -/
theorem C1_add_numbers_tally_witness :
    ("12025550100" ∈ (["12025550100"] : List String)
      ∧ (addStep (fun _ => .resp 200 none "")
            { existing := ["12025550100"], added := 1, skipped := 0, failed := 0,
              reqs := 1, output := [] } "12025550100").reqs = 1)
    ∧ (¬ "12025550101" ∈ ([] : List String)
      ∧ (addStep (fun _ => .resp 201 none "")
            { existing := [], added := 0, skipped := 0, failed := 0,
              reqs := 0, output := [] } "12025550101").added = 1) :=
  ⟨⟨by decide,
    (C1_add_numbers_tally.2.1 (fun _ => .resp 200 none "")
      { existing := ["12025550100"], added := 1, skipped := 0, failed := 0,
        reqs := 1, output := [] } "12025550100" (by decide)).1⟩,
   ⟨by decide,
    (C1_add_numbers_tally.2.2.1 (fun _ => .resp 201 none "")
      { existing := [], added := 0, skipped := 0, failed := 0,
        reqs := 0, output := [] } "12025550101" 201 none "" (by decide) rfl
      (by decide) (by decide)).1⟩⟩

/-- The prompt count grows by one per request while the global key stays
at a placeholder value, since `auth_tuple` never writes it back. -/
theorem run_requests_placeholder (inputs : List String) (k : String) (n : Nat)
    (hk : k = "" ∨ k = "API_KEY") (h : ∀ p ∈ inputs, pyStrip p ≠ "") :
    run_requests ⟨k, n⟩ inputs = .ok ⟨k, n + inputs.length⟩ := by
  induction inputs generalizing n with
  | nil => simp [run_requests]
  | cons p ps ih =>
      have hp : pyStrip p ≠ "" := h p (by simp)
      have hcond : (k = "" || k = "API_KEY") = true := by
        rcases hk with h' | h' <;> simp [h']
      have ha : auth_tuple ⟨k, n⟩ p = .ok (⟨k, n + 1⟩, ("apikey", pyStrip p)) := by
        rw [auth_tuple]
        simp only [hcond, if_true]
        rw [if_neg hp]
      rw [run_requests, ha]
      show run_requests ⟨k, n + 1⟩ ps = .ok ⟨k, n + (p :: ps).length⟩
      rw [ih (n + 1) (fun q hq => h q (List.mem_cons_of_mem _ hq))]
      have harith : n + 1 + ps.length = n + (p :: ps).length := by
        simp only [List.length_cons]; omega
      rw [harith]

/-- C10: with the API key environment variable unset (empty) or left at
its placeholder "API_KEY", the interactive key prompt occurs on every
single HTTP request: the prompted key is never cached in the process-wide
key variable, so `n` requests cause exactly `n` prompts and the stored
key still holds the placeholder afterwards. -/
theorem C10_key_prompted_every_request :
    (∀ inputs : List String, (∀ p ∈ inputs, pyStrip p ≠ "") →
        run_requests ⟨"API_KEY", 0⟩ inputs = .ok ⟨"API_KEY", inputs.length⟩)
    ∧ (∀ inputs : List String, (∀ p ∈ inputs, pyStrip p ≠ "") →
        run_requests ⟨"", 0⟩ inputs = .ok ⟨"", inputs.length⟩)
    ∧ (∀ (st st' : TransportState) (p : String) (pair : String × String),
        auth_tuple st p = .ok (st', pair) → st'.api_key = st.api_key) := by
  refine ⟨fun inputs h => ?_, fun inputs h => ?_, fun st st' p pair h => ?_⟩
  · simpa using run_requests_placeholder inputs "API_KEY" 0 (Or.inr rfl) h
  · simpa using run_requests_placeholder inputs "" 0 (Or.inl rfl) h
  · simp only [auth_tuple] at h
    split at h
    · split at h
      · exact absurd h (by simp)
      · simp only [Except.ok.injEq, Prod.mk.injEq] at h
        rw [← h.1]
    · simp only [Except.ok.injEq, Prod.mk.injEq] at h
      rw [← h.1]

/-- Witness for C10: two requests with the placeholder key cause two
prompts, and the key variable still holds the placeholder. -/
theorem C10_key_prompted_every_request_witness :
    run_requests ⟨"API_KEY", 0⟩ ["first-key", "second-key"]
      = .ok ⟨"API_KEY", 2⟩ :=
  C10_key_prompted_every_request.1 ["first-key", "second-key"] (by decide)

/-- Concrete client for the list-numbers scenario: id 7, username
"alice", one number. -/
def c5client : Client :=
  ⟨some 7, some "alice", [⟨"12025550100"⟩]⟩

/-- C5 counterexample: the claim says a numeric client id is NOT usable
as the identifier for the list-numbers operation; but `get_client`
delegates to the id-aware `get_client_by_identifier`, so the identifier
"7" resolves the client whose id is 7 (whose username is "alice", not
"7"), and `list_client_numbers` renders its numbers instead of
not-found. -/
theorem C5_list_numbers_counterexample :
    get_client [c5client] "7" = some c5client
    ∧ c5client.username ≠ some "7"
    ∧ list_client_numbers [c5client] "7"
        = ["\n=== Numbers for '7' ===", "row 12025550100"] := by
  refine ⟨by decide, by decide, by decide⟩

/-- C5 amended: `list_client_numbers` resolves the client through
`get_client`, which simply delegates to `get_client_by_identifier`, so
the lookup is exactly as id-aware as every other client lookup: a
numeric identifier matching a client id resolves that client. -/
theorem C5_list_numbers_id_aware :
    (∀ (clients : List Client) (s : String),
        get_client clients s = get_client_by_identifier clients s)
    ∧ (∀ (clients : List Client) (ident : String) (c : Client),
        pyIsDigit ident = true →
        clients.find? (fun c => c.id == some (identVal ident)) = some c →
        get_client clients ident = some c)
    ∧ (∀ (clients : List Client) (ident : String) (c : Client),
        get_client clients ident = some c →
        list_client_numbers clients ident
          = (if c.numbers.isEmpty
             then ["\n=== Numbers for '" ++ ident ++ "' ===", "No numbers configured."]
             else ("\n=== Numbers for '" ++ ident ++ "' ===")
               :: c.numbers.map showNumberRow)) := by
  refine ⟨fun clients s => rfl, fun clients ident c h1 h2 => ?_,
    fun clients ident c h => ?_⟩
  · rw [get_client]
    simp [get_client_by_identifier, h1, h2]
  · rw [list_client_numbers, h]

/-- Witness for C5: the identifier "7" resolves client id 7 and its
numbers are listed. -/
theorem C5_list_numbers_id_aware_witness :
    get_client [c5client] "7" = some c5client
    ∧ list_client_numbers [c5client] "7"
        = ["\n=== Numbers for '7' ===", "row 12025550100"] :=
  ⟨C5_list_numbers_id_aware.2.1 [c5client] "7" c5client (by decide) (by decide),
   by
    have h := C5_list_numbers_id_aware.2.2 [c5client] "7" c5client
      (C5_list_numbers_id_aware.2.1 [c5client] "7" c5client (by decide) (by decide))
    simpa [c5client, showNumberRow] using h⟩

/-- C6 counterexample: the claim says no error path returns a failure
indicator without printing anything; but when its `GET /clients` comes
back with status 500, `get_client_by_identifier` returns `None` (the
failure indicator) having printed NOTHING (main.py lines 250-251). -/
theorem C6_silent_lookup_counterexample :
    get_client_by_identifier_op (.ok ⟨500, some [], "internal error"⟩) "alice"
      = (.ok none, []) := by
  decide

/-- C6 amended: every failure path prints an operator-visible message,
EXCEPT the client-lookup helper's non-200 response path, which silently
returns the not-found value with no output (its callers then print a
generic "not found" message that does not describe the HTTP failure).
Network errors in the lookup, and the network / non-2xx paths of the
list and create operations, all print. -/
theorem C6_failure_paths_print :
    (∀ (e ident : String),
        get_client_by_identifier_op (.error e) ident
          = (.ok none, ["Network error: " ++ e]))
    ∧ (∀ (resp : ClientsResp) (ident : String), resp.status ≠ 200 →
        get_client_by_identifier_op (.ok resp) ident = (.ok none, []))
    ∧ (∀ e : String,
        (list_carriers (.error e)).output
          = ["\n=== All Carriers ===", "Network error: " ++ e])
    ∧ (∀ resp : CarriersResp, resp.status ≠ 200 →
        (list_carriers (.ok resp)).output ≠ [])
    ∧ (∀ resp : ClientsResp, resp.status ≠ 200 →
        (list_clients (.ok resp)).2 ≠ [])
    ∧ (∀ (name e : String), (create_carrier_submit name (.error e)).2 ≠ [])
    ∧ (∀ (name : String) (resp : RawResp), ¬ (200 ≤ resp.status ∧ resp.status < 300) →
        (create_carrier_submit name (.ok resp)).2 ≠ []) := by
  refine ⟨fun e ident => rfl, fun resp ident h => ?_, fun e => rfl,
    fun resp h => ?_, fun resp h => ?_, fun name e => ?_, fun name resp h => ?_⟩
  · simp [get_client_by_identifier_op, h]
  · simp [list_carriers, h]
  · simp [list_clients, h]
  · simp [create_carrier_submit]
  · simp [create_carrier_submit, h]

/-- Witness for C6 amended: the silent non-200 lookup path and a printing
non-200 list path at concrete responses. -/
theorem C6_failure_paths_print_witness :
    get_client_by_identifier_op (.ok ⟨503, none, "down"⟩) "bob" = (.ok none, [])
    ∧ (list_carriers (.ok ⟨503, none, "down"⟩)).output ≠ [] :=
  ⟨C6_failure_paths_print.2.1 ⟨503, none, "down"⟩ "bob" (by decide),
   C6_failure_paths_print.2.2.2.1 ⟨503, none, "down"⟩ (by decide)⟩

/-- C4 counterexample: the claim says every operation treats any status
in 200-299 as success; but `list_carriers` tests `status != 200`, so a
201 response with a perfectly good JSON body is reported as a failure
and yields the `None` failure result. -/
theorem C4_status_counterexample :
    list_carriers (.ok ⟨201, some [⟨"acme"⟩], ""⟩)
      = { outcome := .ok none
          output := ["\n=== All Carriers ===",
                     "❌ Failed to list carriers (201)", "acme"] } := by
  decide

/-- C4 amended: the mutating operations (create carrier, create client,
settings update, password change, reloads, number add) treat any 2xx
status as success, but the listing GET operations (`list_carriers`,
`list_clients`, and the client lookup) treat only status 200 as success;
failures are reported with the status code, with a best-effort parsed
body in most operations (`list_clients` prints only the status line, and
the client lookup prints nothing). -/
theorem C4_success_statuses :
    (∀ (name : String) (resp : RawResp),
        (create_carrier_submit name (.ok resp)).1
          = if 200 ≤ resp.status ∧ resp.status < 300 then some name else none)
    ∧ (∀ (st : Nat) (cs : List Carrier) (t : String),
        (list_carriers (.ok ⟨st, some cs, t⟩)).outcome
          = if st = 200 then .ok (some (if cs.isEmpty then [] else cs))
            else .ok none)
    ∧ (∀ (st : Nat) (cs : List Client) (t : String),
        (list_clients (.ok ⟨st, some cs, t⟩)).1
          = if st = 200 then .ok (some (if cs.isEmpty then [] else cs))
            else .ok none)
    ∧ (∀ (st : Nat) (cs : List Client) (t ident : String),
        (get_client_by_identifier_op (.ok ⟨st, some cs, t⟩) ident).1
          = if st = 200 then .ok (get_client_by_identifier cs ident)
            else .ok none) := by
  refine ⟨fun name resp => ?_, fun st cs t => ?_, fun st cs t => ?_,
    fun st cs t ident => ?_⟩
  · by_cases h : 200 ≤ resp.status ∧ resp.status < 300 <;>
      simp [create_carrier_submit, h]
  · by_cases h : st = 200 <;>
      · by_cases he : cs.isEmpty <;> simp_all [list_carriers]
  · by_cases h : st = 200 <;>
      · by_cases he : cs.isEmpty <;> simp_all [list_clients]
  · by_cases h : st = 200 <;> simp [get_client_by_identifier_op, h]

/-- C7 counterexample: the claim says the textual fallback applies to all
responses including 2xx; but `list_carriers` reads a 200 body with an
unguarded `resp.json()` (main.py line 99), so a 200 response whose body
is not JSON raises an uncaught exception instead of falling back to the
raw text. -/
theorem C7_json_fallback_counterexample :
    list_carriers (.ok ⟨200, none, "<html>gateway error page</html>"⟩)
      = { outcome := .raised "JSONDecodeError"
          output := ["\n=== All Carriers ==="] } := by
  decide

/-- C7 amended: the textual fallback applies to non-2xx error bodies
(parsed inside try/except, printing the raw text when JSON parsing
fails), and network errors are caught; but the body of a 2xx response,
where it is consumed (list and create operations), is parsed by an
unguarded `resp.json()` and a parse failure raises an uncaught
exception. -/
theorem C7_json_fallback_scope :
    (∀ e : String, (list_carriers (.error e)).outcome = .ok none)
    ∧ (∀ (st : Nat) (j : Option (List Carrier)) (t : String), st ≠ 200 →
        list_carriers (.ok ⟨st, j, t⟩)
          = { outcome := .ok none
              output := ["\n=== All Carriers ===",
                "❌ Failed to list carriers (" ++ toString st ++ ")",
                match j with
                | some cs => showCarriers cs
                | none => t] })
    ∧ (∀ (st : Nat) (t : String), st ≠ 200 →
        (list_carriers (.ok ⟨st, none, t⟩)).output.getLast? = some t)
    ∧ (∀ (p : CreateClientPrompts) (gen : String) (st : Nat) (t : String),
        pyStrip p.username ≠ "" → pyStrip p.type_choice = "2" →
        200 ≤ st → st < 300 →
        (create_client_interactive p gen (.ok ⟨st, none, t⟩)).result
          = .raised "JSONDecodeError") := by
  refine ⟨fun e => rfl, fun st j t h => ?_, fun st t h => ?_,
    fun p gen st t hu h2 h3 h4 => ?_⟩
  · cases j <;> simp [list_carriers, h]
  · simp [list_carriers, h]
  · simp [create_client_interactive, hu, h2, h3, h4]

/-- Witness for C7 amended: the non-200 textual fallback at a concrete
404 response with an unparseable body, and the 2xx raise at a concrete
creation. -/
theorem C7_json_fallback_scope_witness :
    list_carriers (.ok ⟨404, none, "not found page"⟩)
      = { outcome := .ok none
          output := ["\n=== All Carriers ===",
            "❌ Failed to list carriers (" ++ toString 404 ++ ")",
            "not found page"] }
    ∧ (create_client_interactive ⟨"bob", "pw", "Bob", "2", "", ""⟩ "G"
        (.ok ⟨201, none, "oops"⟩)).result = .raised "JSONDecodeError" :=
  ⟨C7_json_fallback_scope.2.1 404 none "not found page" (by decide),
   C7_json_fallback_scope.2.2.2 ⟨"bob", "pw", "Bob", "2", "", ""⟩ "G" 201 "oops"
     (by decide) (by decide) (by decide) (by decide)⟩

/-- C8: interactive creation of a legacy client with a blank address
refuses locally — it prints the explicit address-required error, returns
the `None` failure value, and POSTs nothing; for a web client a blank
address simply omits the `address` key from the POSTed payload. -/
theorem C8_legacy_address_required :
    (∀ (p : CreateClientPrompts) (gen : String)
        (r : Except String CreateClientResp),
        pyStrip p.username ≠ "" → pyStrip p.type_choice ≠ "2" →
        pyStrip p.address = "" →
          (create_client_interactive p gen r).requests = []
          ∧ (create_client_interactive p gen r).result = .ok none
          ∧ "❌ Address is required for legacy clients (used for SMPP ACL and MM4 delivery)"
              ∈ (create_client_interactive p gen r).output)
    ∧ (∀ (p : CreateClientPrompts) (gen : String)
        (r : Except String CreateClientResp) (pl : ClientPayload),
        pyStrip p.type_choice = "2" → pyStrip p.address = "" →
        pl ∈ (create_client_interactive p gen r).requests →
        pl.address? = none) := by
  constructor
  · intro p gen r h1 h2 h3
    refine ⟨?_, ?_, ?_⟩ <;> simp [create_client_interactive, h1, h2, h3]
  · intro p gen r pl h2 h3 hmem
    by_cases hu : pyStrip p.username = ""
    · simp [create_client_interactive, hu] at hmem
    · cases r with
      | error e =>
          simp [create_client_interactive, hu, h2, h3] at hmem
          simp [hmem]
      | ok resp =>
          by_cases hs : 200 ≤ resp.status ∧ resp.status < 300
          · cases hj : resp.json? with
            | none =>
                simp [create_client_interactive, hu, h2, h3, hs, hj] at hmem
                simp [hmem]
            | some body =>
                simp [create_client_interactive, hu, h2, h3, hs, hj] at hmem
                simp [hmem]
          · simp [create_client_interactive, hu, h2, h3, hs] at hmem
            simp [hmem]

/-- Witness for C8: a legacy creation with a blank address at concrete
prompts refuses without a request, and a web creation with a blank
address POSTs a payload without the address key. -/
theorem C8_legacy_address_required_witness :
    (create_client_interactive ⟨"alice", "pw", "Acme", "1", "   ", "0"⟩ "G"
        (.error "unused")).requests = []
    ∧ (∀ pl ∈ (create_client_interactive ⟨"bob", "pw", "Bob", "2", "", "5"⟩ "G"
        (.error "net down")).requests, pl.address? = none) :=
  ⟨(C8_legacy_address_required.1 ⟨"alice", "pw", "Acme", "1", "   ", "0"⟩ "G"
      (.error "unused") (by decide) (by decide) (by decide)).1,
   fun pl hmem =>
     C8_legacy_address_required.2 ⟨"bob", "pw", "Bob", "2", "", "5"⟩ "G"
       (.error "net down") pl (by decide) (by decide) hmem⟩

/-- C9: the settings update builds a partial map holding only the fields
the operator set (blank prompts set nothing; unparsable integer prompts
are silently dropped); when the map is empty no PUT is sent and "No
settings to update." is the only report. -/
theorem C9_settings_empty_no_request :
    (∀ p : SettingsPrompts,
        pyStrip p.format_choice ≠ "1" → pyStrip p.format_choice ≠ "2" →
        pyStrip p.format_choice ≠ "3" →
        (build_settings p).api_format = none)
    ∧ (∀ p : SettingsPrompts, pyStrip p.webhook = "" →
        (build_settings p).default_webhook = none)
    ∧ (∀ p : SettingsPrompts, pyInt? (pyStrip p.retries) = none →
        (build_settings p).webhook_retries = none)
    ∧ (∀ p : SettingsPrompts, pyInt? (pyStrip p.timeout) = none →
        (build_settings p).webhook_timeout_secs = none)
    ∧ (∀ (ident : String) (client : Client) (p : SettingsPrompts)
        (r : Except String RawResp),
        settingsEmpty (build_settings p) = true →
        update_client_settings ident (some client) p r
          = { requests := [], output := ["No settings to update."] })
    ∧ update_client_settings "7" (some c5client) ⟨"", "", "", ""⟩ (.error "unused")
        = { requests := [], output := ["No settings to update."] } := by
  refine ⟨fun p h1 h2 h3 => ?_, fun p h => ?_, fun p h => ?_, fun p h => ?_,
    fun ident client p r h => ?_, by decide⟩
  · simp [build_settings, formatsLookup, h1, h2, h3]
  · simp [build_settings, h]
  · by_cases he : pyStrip p.retries = "" <;> simp [build_settings, he, h]
  · by_cases he : pyStrip p.timeout = "" <;> simp [build_settings, he, h]
  · simp [update_client_settings, h]

/-- Witness for C9: the empty-map branch applied at all-blank prompts. -/
theorem C9_settings_empty_no_request_witness :
    update_client_settings "bob" (some c5client) ⟨" ", "", " ", ""⟩ (.ok ⟨200, none, ""⟩)
      = { requests := [], output := ["No settings to update."] } :=
  C9_settings_empty_no_request.2.2.2.2.1 "bob" c5client ⟨" ", "", " ", ""⟩
    (.ok ⟨200, none, ""⟩) (by decide)
